import Mathlib

/-!
# Verification of `src/infer_response.cc` (Triton python backend, InferResponse)

Shallow embedding of the inference-response value, its shared-memory codec
(`SaveToSharedMemory` / `LoadFromSharedMemory`), output pruning
(`PruneOutputTensors`), and the delivery pipeline (`Send` /
`DeferredSendCallback`), together with proofs of the specification claims.

Collaborator objects that live outside this file in the repository
(`PbTensor`, `PbError`, `SharedMemoryManager`, `ScopedDefer`, the
`SET_ERROR_AND_RETURN` macros and the Triton runtime calls) are modelled at
their interface boundary, following the spec's collaborator contracts.
-/

set_option linter.unusedVariables false

namespace InferResponseModel

/-- Opaque arena handle: an index into the arena's cell list.
Mirrors `bi::managed_external_buffer::handle_t`. -/
abbrev Handle := Nat

/-- Triton memory kinds (`TRITONSERVER_MemoryType`). -/
inductive MemType where
  | cpu
  | cpuPinned
  | gpu
deriving DecidableEq, Repr

/-- Modelled from the spec: the tensor value collaborator (`PbTensor`),
"provides byte size, element type, dimensions, memory location, and a
save/load-to-shared-memory contract".  `shm_handle` is the member handle set
by its save, as for the response itself. -/
structure PbTensor where
  name : String
  dtype : Nat
  dims : List Int
  byteSize : Nat
  memoryType : MemType
  memoryTypeId : Int
  data : List Nat
  shm_handle : Handle
deriving DecidableEq, Repr

/-- The cross-process content of a tensor: everything except the
process-local shared-memory handle member. -/
def PbTensor.content (t : PbTensor) :
    String × Nat × List Int × Nat × MemType × Int × List Nat :=
  (t.name, t.dtype, t.dims, t.byteSize, t.memoryType, t.memoryTypeId, t.data)

/-- Modelled from the spec: the error value collaborator (`PbError`), which
"carries a message string" and has the same save/load contract. -/
structure PbError where
  message : String
  shm_handle : Handle
deriving DecidableEq, Repr

/-- The fixed-size shared-memory response record (`ResponseShm` header plus
the trailing tensor-handle table that follows it in the same allocation). -/
structure ResponseShm where
  has_error : Bool
  is_error_set : Bool
  error : Handle
  outputs_size : Nat
  output_handles : List Handle
deriving DecidableEq, Repr

/-- One allocation in the shared arena. -/
inductive ShmCell where
  | tensorCell (t : PbTensor)
  | errorCell (msg : String)
  | responseCell (r : ResponseShm)
deriving DecidableEq, Repr

/-- Modelled from the spec: the arena allocator collaborator
(`SharedMemoryManager`): `allocate(size) -> (handle, region)`,
`load(handle) -> region`; append-only from this core's perspective, each
allocation returning a unique handle. -/
structure SharedMemoryManager where
  cells : List ShmCell
deriving DecidableEq, Repr

/-- Mirror of `Construct`: allocate a fresh cell, returning the new pool and handle. -/
def SharedMemoryManager.construct (pool : SharedMemoryManager) (c : ShmCell) :
    SharedMemoryManager × Handle :=
  (⟨pool.cells ++ [c]⟩, pool.cells.length)

/-- Mirror of `Load`: read the cell at a handle. -/
def SharedMemoryManager.load (pool : SharedMemoryManager) (h : Handle) :
    Option ShmCell :=
  pool.cells[h]?

/-- Modelled from the spec: the data captured by the response-sending
`ScopedDefer` lambda in `Send` (`scoped_defer.h` is outside this file): the
completion flags and whether this call created — and must tear down — the
response factory.  The spec's "Deferred send state": an owned on-exit
action, consumed exactly once. -/
structure SendAction where
  flags : Nat
  destruct_response_factor : Bool
deriving DecidableEq, Repr

/-- The in-memory response value (`InferResponse` members).  The
next-response future (`std::future<unique_ptr<InferResponse>>`) is modelled
as an opaque token; `deferred_send_callback` is the
`unique_ptr<ScopedDefer>` member, empty until `Send` stores a deferred
action on it. -/
structure InferResponse where
  output_tensors : List PbTensor
  error : Option PbError
  next_response_future : Option Nat
  shm_handle : Handle
  deferred_send_callback : Option SendAction := none
deriving DecidableEq, Repr

/-- Mirror of `InferResponse::HasError`: `error_.get() != nullptr`. -/
def InferResponse.HasError (r : InferResponse) : Bool :=
  r.error.isSome

/-- Mirror of `InferResponse::Error`: accessor for the stored error reference. -/
def InferResponse.Error (r : InferResponse) : Option PbError :=
  r.error

/-- Assignment through the mutable reference returned by
`InferResponse::Error()` (`error_` is a `shared_ptr` the caller may
repopulate or clear after construction). -/
def InferResponse.setError (r : InferResponse) (e : Option PbError) :
    InferResponse :=
  { r with error := e }

/-- The exception message thrown by both constructors on a null tensor. -/
def nullTensorMessage : String :=
  "Output tensor for inference response should not be empty."

/-- First constructor `InferResponse::InferResponse(output_tensors, error)`:
walks the tensor list, throws `PythonBackendException` on any null
(`shared_ptr` empty) tensor, otherwise stores the list and the error. -/
def InferResponse.construct (output_tensors : List (Option PbTensor))
    (error : Option PbError) : Except String InferResponse :=
  if output_tensors.any (fun o => o.isNone) then
    .error nullTensorMessage
  else
    .ok { output_tensors := output_tensors.reduceOption
          error := error
          next_response_future := none
          shm_handle := 0 }

/-- Second constructor `InferResponse::InferResponse(output_tensors, promise,
error)`: same null check, additionally stores the future obtained from the
promise (modelled as an opaque token). -/
def InferResponse.constructWithPromise (output_tensors : List (Option PbTensor))
    (promiseFuture : Nat) (error : Option PbError) :
    Except String InferResponse :=
  if output_tensors.any (fun o => o.isNone) then
    .error nullTensorMessage
  else
    .ok { output_tensors := output_tensors.reduceOption
          error := error
          next_response_future := some promiseFuture
          shm_handle := 0 }

/-- The constructors run with no access to the arena: threading the pool
through them records that construction performs no shared-memory
interaction (the C++ constructors never touch a `SharedMemoryManager`). -/
def InferResponse.constructInArena (pool : SharedMemoryManager)
    (output_tensors : List (Option PbTensor)) (error : Option PbError) :
    Except String InferResponse × SharedMemoryManager :=
  (InferResponse.construct output_tensors error, pool)

/-- Same for the promise-taking constructor. -/
def InferResponse.constructWithPromiseInArena (pool : SharedMemoryManager)
    (output_tensors : List (Option PbTensor)) (promiseFuture : Nat)
    (error : Option PbError) :
    Except String InferResponse × SharedMemoryManager :=
  (InferResponse.constructWithPromise output_tensors promiseFuture error, pool)

/-- Mirror of `InferResponse::GetNextResponse`: `std::move(next_response_future_)` —
returns the stored future and leaves the member moved-from (empty). -/
def InferResponse.GetNextResponse (r : InferResponse) :
    Option Nat × InferResponse :=
  (r.next_response_future, { r with next_response_future := none })

/-- The loop body of `InferResponse::PruneOutputTensors`: erase every tensor
whose name is absent from `requested_output_names`, advancing past the
retained ones. -/
def pruneLoop (requested_output_names : List String) :
    List PbTensor → List PbTensor
  | [] => []
  | t :: ts =>
    if requested_output_names.contains t.name then
      t :: pruneLoop requested_output_names ts
    else
      pruneLoop requested_output_names ts

/-- Mirror of `InferResponse::PruneOutputTensors`: in-place filter of the output
sequence by the requested-name set (the set is modelled as its element
list; `std::set::find == end()` is list non-membership). -/
def InferResponse.PruneOutputTensors (r : InferResponse)
    (requested_output_names : List String) : InferResponse :=
  { r with output_tensors := pruneLoop requested_output_names r.output_tensors }

/-- The body of the save loop: each output tensor is saved into the arena at
a fresh handle (the tensor-save collaborator contract: `save(arena,
copy_gpu_bytes)` writes the tensor value and sets its member handle), and
its handle recorded in the trailing table, preserving order.  Returns the
grown pool, the handle table, and the tensors with their handle members
updated.  The `copy_gpu` flag only controls whether GPU bytes are physically
copied, which is invisible at this interface. -/
def saveOutputTensors (copy_gpu : Bool) :
    SharedMemoryManager → List PbTensor →
    SharedMemoryManager × List Handle × List PbTensor
  | pool, [] => (pool, [], [])
  | pool, t :: ts =>
    let h := pool.cells.length
    let t' := { t with shm_handle := h }
    let pool' : SharedMemoryManager := ⟨pool.cells ++ [ShmCell.tensorCell t']⟩
    let saved := saveOutputTensors copy_gpu pool' ts
    (saved.1, h :: saved.2.1, t' :: saved.2.2)

/-- Mirror of `InferResponse::SaveToSharedMemory`: allocate the record (header only
when the response has an error, header plus one handle per output
otherwise), initialise `has_error = is_error_set = false`, set the
response's own handle; then either serialize the error value and flag the
record, or serialize every output tensor in order into the trailing handle
table.  Returns the grown pool and the response with its members
(`shm_handle_`, saved error / tensors) updated. -/
def InferResponse.SaveToSharedMemory (r : InferResponse)
    (pool : SharedMemoryManager) (copy_gpu : Bool) :
    SharedMemoryManager × InferResponse :=
  let initRecord : ResponseShm :=
    { has_error := false, is_error_set := false, error := 0
      outputs_size := 0, output_handles := [] }
  let alloc := pool.construct (ShmCell.responseCell initRecord)
  let pool1 := alloc.1
  let h := alloc.2
  if r.HasError then
    let msg := (r.error.map PbError.message).getD ""
    let ealloc := pool1.construct (ShmCell.errorCell msg)
    let pool2 := ealloc.1
    let eh := ealloc.2
    let record : ResponseShm :=
      { has_error := true, is_error_set := true, error := eh
        outputs_size := 0, output_handles := [] }
    let pool3 : SharedMemoryManager :=
      ⟨pool2.cells.set h (ShmCell.responseCell record)⟩
    (pool3, { r with shm_handle := h
                     error := r.error.map (fun e => { e with shm_handle := eh }) })
  else
    let saved := saveOutputTensors copy_gpu pool1 r.output_tensors
    let record : ResponseShm :=
      { has_error := false, is_error_set := false, error := 0
        outputs_size := r.output_tensors.length
        output_handles := saved.2.1 }
    let pool3 : SharedMemoryManager :=
      ⟨saved.1.cells.set h (ShmCell.responseCell record)⟩
    (pool3, { r with shm_handle := h, output_tensors := saved.2.2 })

/-- Mirror of `InferResponse::ShmHandle`. -/
def InferResponse.ShmHandle (r : InferResponse) : Handle :=
  r.shm_handle

/-- Message synthesized by `LoadFromSharedMemory` when a record is flagged
`has_error` but the error value was never written. -/
def failedRetrieveMessage : String :=
  "Failed to retrieve the response error."

/-- One iteration of the load loop: read `tensor_handle_shm[idx]` and load
the tensor value it references (collaborator contract `load(arena, handle,
map_gpu) -> tensor`; a bad handle is a load failure, modelled as `none`). -/
def loadTensorAt (pool : SharedMemoryManager) (table : List Handle)
    (idx : Nat) : Option PbTensor :=
  match table[idx]? with
  | some h =>
    match pool.load h with
    | some (ShmCell.tensorCell t) => some t
    | _ => none
  | none => none

/-- The load loop: `for idx in [0, requested_output_count)`, appending each
loaded tensor in order. -/
def loadOutputLoop (pool : SharedMemoryManager) (table : List Handle) :
    Nat → Nat → Option (List PbTensor)
  | _, 0 => some []
  | idx, Nat.succ k =>
    match loadTensorAt pool table idx with
    | some t =>
      match loadOutputLoop pool table (idx + 1) k with
      | some ts => some (t :: ts)
      | none => none
    | none => none

/-- Mirror of `InferResponse::LoadFromSharedMemory`: load the record at the handle;
if `has_error && is_error_set`, load the referenced error value; if
`has_error && !is_error_set`, synthesize the generic placeholder error; else
load `outputs_size` tensors from the trailing handle table in order.
Construct the response from the loaded parts (the private constructor sets
`shm_handle_` from the loaded record's handle).  `none` models a thrown
`PythonBackendException` from a failed arena or collaborator load. -/
def InferResponse.LoadFromSharedMemory (pool : SharedMemoryManager)
    (response_handle : Handle) (open_cuda_handle : Bool) :
    Option InferResponse :=
  match pool.load response_handle with
  | some (ShmCell.responseCell record) =>
    if record.has_error && record.is_error_set then
      match pool.load record.error with
      | some (ShmCell.errorCell msg) =>
        some { output_tensors := []
               error := some { message := msg, shm_handle := record.error }
               next_response_future := none
               shm_handle := response_handle }
      | _ => none
    else if record.has_error && !record.is_error_set then
      some { output_tensors := []
             error := some { message := failedRetrieveMessage, shm_handle := 0 }
             next_response_future := none
             shm_handle := response_handle }
    else
      match loadOutputLoop pool record.output_handles 0 record.outputs_size with
      | some ts =>
        some { output_tensors := ts
               error := none
               next_response_future := none
               shm_handle := response_handle }
      | none => none
  | _ => none

/-- The `TRITONSERVER_RESPONSE_COMPLETE_FINAL` completion flag. -/
def TRITONSERVER_RESPONSE_COMPLETE_FINAL : Nat := 1

/-- Modelled from the spec: the serving runtime's response-channel API as
observed by one `Send` call.  Each field gives the outcome of one runtime
call (an error message, or `none` for success), indexed by the position of
the output tensor being processed; `actualMemoryType` is the memory
location the runtime actually satisfies `TRITONBACKEND_OutputBuffer` with
("the runtime may satisfy this with a different memory location than
requested").  `gpuEnabled` is the `TRITON_ENABLE_GPU` build variant. -/
structure SendEnv where
  gpuEnabled : Bool
  factoryNewError : Option String
  responseOutputError : Nat → Option String
  outputBufferError : Nat → Option String
  actualMemoryType : Nat → MemType
  actualMemoryTypeId : Nat → Int
  bufferAttributesError : Nat → Option String
  cudaIpcHandleError : Nat → Option String
  cudaIpcHandleAvailable : Nat → Bool
  pbMemoryCreateError : Nat → Option String
  copyBufferError : Nat → Option String
  copyBufferCudaUsed : Nat → Bool

/-- The decision recorded per GPU-involved output tensor (spec design note:
a closed variant decided once per output, carried with the descriptor). -/
inductive BufferKind where
  | gpuZeroCopyIpc
  | gpuSameDeviceCopy
  | gpuToHostPending
deriving DecidableEq, Repr

/-- One entry of the caller's `output_buffers` list: the `PbMemory`
descriptor plus destination buffer pushed by `Send`. -/
structure OutputBufferDesc where
  index : Nat
  kind : BufferKind
  memoryType : MemType
  memoryTypeId : Int
  byteSize : Nat
deriving DecidableEq, Repr

/-- The mutable locals of `Send`'s output loop: the deferred-completion
out-parameter, the `cuda_copy` accumulator, the caller's `output_buffers`
list, and a count of runtime response outputs created so far. -/
structure SendLoopState where
  requires_deferred_callback : Bool
  cuda_copy : Bool
  output_buffers : List OutputBufferDesc
  outputs_created : Nat
deriving DecidableEq, Repr

/-- The output loop of `InferResponse::Send` (one iteration per output
tensor, in order).  `Except.error (msg, st)` models an early
`SET_ERROR_AND_RETURN` exit: the wrapped slot is set to `msg` and the
function returns with the loop state as it stood.  Mirrors the source:
mark deferred completion as soon as the source memory type is GPU (before
the buffer allocation), create the runtime output, allocate its buffer
(the runtime choosing the actual memory location), query buffer
attributes; then the three placement cases — GPU source with GPU buffer
(IPC handle if available, else same-device copy; compiled only under
`TRITON_ENABLE_GPU`), GPU source with host buffer (pending copy, no data
pointer yet), host source (immediate `CopyBuffer`). -/
def sendLoop (env : SendEnv) : Nat → List PbTensor → SendLoopState →
    Except (String × SendLoopState) SendLoopState
  | _, [], st => .ok st
  | idx, output_tensor :: rest, st =>
    let src_memory_type := output_tensor.memoryType
    let st :=
      if src_memory_type = MemType.gpu then
        { st with requires_deferred_callback := true }
      else st
    match env.responseOutputError idx with
    | some msg => .error (msg, st)
    | none =>
      let st := { st with outputs_created := st.outputs_created + 1 }
      match env.outputBufferError idx with
      | some msg => .error (msg, st)
      | none =>
        let actual_memory_type := env.actualMemoryType idx
        let actual_memory_type_id := env.actualMemoryTypeId idx
        match env.bufferAttributesError idx with
        | some msg => .error (msg, st)
        | none =>
          if src_memory_type = MemType.gpu ∧ actual_memory_type = MemType.gpu then
            if env.gpuEnabled then
              match env.cudaIpcHandleError idx with
              | some msg => .error (msg, st)
              | none =>
                match env.pbMemoryCreateError idx with
                | some msg => .error (msg, st)
                | none =>
                  let kind :=
                    if env.cudaIpcHandleAvailable idx then
                      BufferKind.gpuZeroCopyIpc
                    else BufferKind.gpuSameDeviceCopy
                  let st :=
                    { st with output_buffers := st.output_buffers ++
                        [⟨idx, kind, actual_memory_type, actual_memory_type_id,
                          output_tensor.byteSize⟩] }
                  sendLoop env (idx + 1) rest st
            else sendLoop env (idx + 1) rest st
          else if src_memory_type = MemType.gpu ∧
              (actual_memory_type = MemType.cpu ∨
               actual_memory_type = MemType.cpuPinned) then
            match env.pbMemoryCreateError idx with
            | some msg => .error (msg, st)
            | none =>
              let st :=
                { st with output_buffers := st.output_buffers ++
                    [⟨idx, BufferKind.gpuToHostPending, actual_memory_type,
                      actual_memory_type_id, output_tensor.byteSize⟩] }
              sendLoop env (idx + 1) rest st
          else
            if src_memory_type ≠ MemType.gpu then
              match env.copyBufferError idx with
              | some msg => .error (msg, st)
              | none =>
                let cuda_used := env.copyBufferCudaUsed idx
                let st := { st with cuda_copy := st.cuda_copy || cuda_used }
                sendLoop env (idx + 1) rest st
            else sendLoop env (idx + 1) rest st

/-- The observable outcome of one `Send` call: the final contents of the
wrapped error slot, whether the function returned the slot itself or a
null handle, the `requires_deferred_callback` out-parameter, whether the
send `ScopedDefer` was ever created (`armed`), whether it fired when the
function returned, the caller's `output_buffers` list as filled in, the
number of runtime outputs created, and the CUDA bookkeeping. -/
structure SendResult where
  response_error : Option String
  returned_slot : Bool
  requires_deferred_callback : Bool
  armed : Bool
  fired_at_exit : Bool
  output_buffers : List OutputBufferDesc
  outputs_created : Nat
  cuda_copy : Bool
  stream_synchronized : Bool
deriving DecidableEq, Repr

/-- What happens at every exit of `Send` after the two `ScopedDefer`s are
armed: `deferred_task` runs first (reverse construction order) and, when
deferred completion is required, moves the send defer into the response's
`deferred_send_callback_` member; otherwise the send defer's destructor
fires the send action now.  Returns the updated response and whether the
action fired at exit. -/
def armedExit (r : InferResponse) (action : SendAction)
    (requires_deferred_callback : Bool) : InferResponse × Bool :=
  if requires_deferred_callback then
    ({ r with deferred_send_callback := some action }, false)
  else (r, true)

/-- Mirror of `InferResponse::Send`: create a response from the factory when none was
provided (`SET_ERROR_AND_RETURN` exits before any defer is armed if that
fails); arm the send defer and the deferring defer; if the response carries
an error, write its message into the wrapped slot and `return nullptr`
immediately (outputs untouched); otherwise run the output loop, then
synchronize the CUDA stream if any host-side copy used an asynchronous
device transfer, and return the wrapped slot.  `requested_output_names` is
a parameter of the source function that its body never reads (the FIXME
about decoupled models). -/
def InferResponse.Send (r : InferResponse) (env : SendEnv) (flags : Nat)
    (response_provided : Bool) (output_buffers : List OutputBufferDesc)
    (requested_output_names : List String) : InferResponse × SendResult :=
  let destruct_response_factor := !response_provided
  match (if response_provided then none else env.factoryNewError) with
  | some msg =>
    (r, { response_error := some msg, returned_slot := true,
          requires_deferred_callback := false, armed := false,
          fired_at_exit := false, output_buffers := output_buffers,
          outputs_created := 0, cuda_copy := false,
          stream_synchronized := false })
  | none =>
    let action : SendAction := ⟨flags, destruct_response_factor⟩
    if r.HasError then
      let msg := (r.error.map PbError.message).getD ""
      let (r', fired) := armedExit r action false
      (r', { response_error := some msg, returned_slot := false,
             requires_deferred_callback := false, armed := true,
             fired_at_exit := fired, output_buffers := output_buffers,
             outputs_created := 0, cuda_copy := false,
             stream_synchronized := false })
    else
      let st0 : SendLoopState := ⟨false, false, output_buffers, 0⟩
      match sendLoop env 0 r.output_tensors st0 with
      | .error (msg, st) =>
        let (r', fired) := armedExit r action st.requires_deferred_callback
        (r', { response_error := some msg, returned_slot := true,
               requires_deferred_callback := st.requires_deferred_callback,
               armed := true, fired_at_exit := fired,
               output_buffers := st.output_buffers,
               outputs_created := st.outputs_created,
               cuda_copy := st.cuda_copy, stream_synchronized := false })
      | .ok st =>
        let synced := env.gpuEnabled && st.cuda_copy
        let (r', fired) := armedExit r action st.requires_deferred_callback
        (r', { response_error := none, returned_slot := true,
               requires_deferred_callback := st.requires_deferred_callback,
               armed := true, fired_at_exit := fired,
               output_buffers := st.output_buffers,
               outputs_created := st.outputs_created,
               cuda_copy := st.cuda_copy, stream_synchronized := synced })

/-- Mirror of `InferResponse::DeferredSendCallback`: `deferred_send_callback_.reset()`
— destroying a stored `ScopedDefer` fires its action; resetting an empty
pointer does nothing.  Returns the updated response and whether the send
action fired. -/
def InferResponse.DeferredSendCallback (r : InferResponse) :
    InferResponse × Bool :=
  match r.deferred_send_callback with
  | some _ => ({ r with deferred_send_callback := none }, true)
  | none => (r, false)

/-- The state a `Send` call ends with, on both the completed and the
early-return exits of the output loop. -/
def loopFinalState :
    Except (String × SendLoopState) SendLoopState → SendLoopState
  | .ok st => st
  | .error (_, st) => st

/-- A runtime in which no call made by `Send` fails (normal delivery). -/
def SendEnv.noFailures (env : SendEnv) : Prop :=
  env.factoryNewError = none ∧
  ∀ i, env.responseOutputError i = none ∧ env.outputBufferError i = none ∧
    env.bufferAttributesError i = none ∧ env.cudaIpcHandleError i = none ∧
    env.pbMemoryCreateError i = none ∧ env.copyBufferError i = none

/-- A concrete runtime environment where every call succeeds and every
allocated buffer is host memory; used to instantiate the delivery
theorems. -/
def benignEnv : SendEnv where
  gpuEnabled := false
  factoryNewError := none
  responseOutputError := fun _ => none
  outputBufferError := fun _ => none
  actualMemoryType := fun _ => MemType.cpu
  actualMemoryTypeId := fun _ => 0
  bufferAttributesError := fun _ => none
  cudaIpcHandleError := fun _ => none
  cudaIpcHandleAvailable := fun _ => false
  pbMemoryCreateError := fun _ => none
  copyBufferError := fun _ => none
  copyBufferCudaUsed := fun _ => false

/-! ## Theorems -/

/-- The erase loop of `PruneOutputTensors` is the filter by requested-name
membership. -/
theorem pruneLoop_eq_filter (names : List String) (ts : List PbTensor) :
    pruneLoop names ts = ts.filter (fun t => names.contains t.name) := by
  induction ts with
  | nil => rfl
  | cons t ts ih =>
    by_cases h : names.contains t.name <;>
      simp [pruneLoop, h, List.filter_cons, ih]

/-- C6: `PruneOutputTensors` removes exactly the tensors whose name is not
in the requested set, preserving the relative order of the retained ones
(the output sequence becomes its filter by membership), mutates only the
output sequence (all other members unchanged), and is idempotent. -/
theorem prune_output_tensors_spec (r : InferResponse) (names : List String) :
    (r.PruneOutputTensors names).output_tensors
        = r.output_tensors.filter (fun t => names.contains t.name) ∧
    (r.PruneOutputTensors names).error = r.error ∧
    (r.PruneOutputTensors names).next_response_future
        = r.next_response_future ∧
    (r.PruneOutputTensors names).shm_handle = r.shm_handle ∧
    (r.PruneOutputTensors names).deferred_send_callback
        = r.deferred_send_callback ∧
    (r.PruneOutputTensors names).PruneOutputTensors names
        = r.PruneOutputTensors names := by
  refine ⟨pruneLoop_eq_filter names r.output_tensors, rfl, rfl, rfl, rfl, ?_⟩
  simp [InferResponse.PruneOutputTensors, pruneLoop_eq_filter,
    List.filter_filter]

/-- C7: supplying any null tensor to either constructor raises the
`PythonBackendException` immediately, and the arena is untouched (no
allocation happens in a failed construction). -/
theorem construct_null_tensor_fails (pool : SharedMemoryManager)
    (output_tensors : List (Option PbTensor)) (promiseFuture : Nat)
    (error : Option PbError)
    (h : (output_tensors.any fun o => o.isNone) = true) :
    InferResponse.constructInArena pool output_tensors error
        = (Except.error nullTensorMessage, pool) ∧
    InferResponse.constructWithPromiseInArena pool output_tensors
        promiseFuture error
        = (Except.error nullTensorMessage, pool) := by
  constructor <;>
    simp [InferResponse.constructInArena,
      InferResponse.constructWithPromiseInArena, InferResponse.construct,
      InferResponse.constructWithPromise, h]

/-- Witness for C7 at a concrete input: a single null tensor. -/
theorem construct_null_tensor_fails_witness :
    (([none] : List (Option PbTensor)).any fun o => o.isNone) = true ∧
    InferResponse.constructInArena ⟨[]⟩ [none] none
        = (Except.error nullTensorMessage, ⟨[]⟩) :=
  ⟨by decide, (construct_null_tensor_fails ⟨[]⟩ [none] 0 none (by decide)).1⟩

/-- C8: `DeferredSendCallback` on a response that never had a deferred send
action stored is a no-op: the response is unchanged and no send action
fires. -/
theorem deferred_send_callback_noop (r : InferResponse)
    (h : r.deferred_send_callback = none) :
    r.DeferredSendCallback = (r, false) := by
  simp [InferResponse.DeferredSendCallback, h]

/-- Witness for C8 at a concrete response with no stored action. -/
theorem deferred_send_callback_noop_witness :
    ({ output_tensors := [], error := none, next_response_future := none,
       shm_handle := 0 } : InferResponse).deferred_send_callback = none ∧
    ({ output_tensors := [], error := none, next_response_future := none,
       shm_handle := 0 } : InferResponse).DeferredSendCallback
        = ({ output_tensors := [], error := none,
             next_response_future := none, shm_handle := 0 }, false) :=
  ⟨rfl, deferred_send_callback_noop _ rfl⟩

/-- C9: a response built by the promise-taking constructor returns its
next-response future on the first `GetNextResponse` and nothing on every
later call (retrieval moves the member out). -/
theorem get_next_response_destructive
    (output_tensors : List (Option PbTensor)) (promiseFuture : Nat)
    (error : Option PbError) (r : InferResponse)
    (h : InferResponse.constructWithPromise output_tensors promiseFuture
        error = Except.ok r) :
    r.GetNextResponse.1 = some promiseFuture ∧
    r.GetNextResponse.2.GetNextResponse.1 = none := by
  by_cases hc : (output_tensors.any fun o => o.isNone) = true
  · simp [InferResponse.constructWithPromise, hc] at h
  · simp [InferResponse.constructWithPromise, hc] at h
    subst h
    simp [InferResponse.GetNextResponse]

/-- Witness for C9 at a concrete construction. -/
theorem get_next_response_destructive_witness :
    InferResponse.constructWithPromise [] 5 none = Except.ok
      { output_tensors := [], error := none, next_response_future := some 5,
        shm_handle := 0 } ∧
    ({ output_tensors := [], error := none, next_response_future := some 5,
       shm_handle := 0 } : InferResponse).GetNextResponse.1 = some 5 :=
  ⟨rfl, (get_next_response_destructive [] 5 none _ rfl).1⟩

/-- C10: `HasError` is true exactly when the stored error is non-null, and
since `Error()` hands out the mutable error slot, setting it after
construction flips `HasError` to true and clearing it flips it to false —
for every response state, hence after every operation. -/
theorem has_error_iff_error_set (r : InferResponse) (e : PbError) :
    (r.HasError = true ↔ r.error ≠ none) ∧
    (r.setError (some e)).HasError = true ∧
    (r.setError none).HasError = false ∧
    r.Error = r.error := by
  refine ⟨?_, rfl, rfl, rfl⟩
  simp [InferResponse.HasError, Option.isSome_iff_ne_none]

/-- Saving the output tensors appends exactly their cells to the arena, in
order. -/
theorem saveOutputTensors_cells (g : Bool) (ts : List PbTensor) :
    ∀ pool : SharedMemoryManager,
      (saveOutputTensors g pool ts).1.cells
        = pool.cells ++ ((saveOutputTensors g pool ts).2.2).map
            ShmCell.tensorCell := by
  induction ts with
  | nil => intro pool; simp [saveOutputTensors]
  | cons t ts ih =>
    intro pool
    simp only [saveOutputTensors, List.map_cons]
    rw [ih]
    simp

/-- The trailing handle table written by the save loop is the contiguous
range of fresh handles starting right after the record allocation. -/
theorem saveOutputTensors_handles (g : Bool) (ts : List PbTensor) :
    ∀ pool : SharedMemoryManager,
      (saveOutputTensors g pool ts).2.1
        = List.range' pool.cells.length ts.length := by
  induction ts with
  | nil => intro pool; simp [saveOutputTensors]
  | cons t ts ih =>
    intro pool
    simp only [saveOutputTensors, List.length_cons, List.range'_succ]
    rw [ih]
    simp

/-- Saving only updates each tensor's shared-memory handle member: the
cross-process content is unchanged, in order. -/
theorem saveOutputTensors_content (g : Bool) (ts : List PbTensor) :
    ∀ pool : SharedMemoryManager,
      ((saveOutputTensors g pool ts).2.2).map PbTensor.content
        = ts.map PbTensor.content := by
  induction ts with
  | nil => intro pool; simp [saveOutputTensors]
  | cons t ts ih =>
    intro pool
    simp only [saveOutputTensors, List.map_cons]
    rw [ih]
    simp [PbTensor.content]

/-- The save loop returns as many updated tensors as it was given. -/
theorem saveOutputTensors_length (g : Bool) (ts : List PbTensor)
    (pool : SharedMemoryManager) :
    (saveOutputTensors g pool ts).2.2.length = ts.length := by
  have hmap := congrArg List.length (saveOutputTensors_content g ts pool)
  simpa using hmap

/-- If every position of the handle table resolves to the corresponding
tensor, the load loop returns the whole list. -/
theorem loadOutputLoop_of_pointwise (pool : SharedMemoryManager)
    (table : List Handle) (ts : List PbTensor) :
    ∀ idx : Nat,
      (∀ i t, ts[i]? = some t → loadTensorAt pool table (idx + i) = some t) →
      loadOutputLoop pool table idx ts.length = some ts := by
  induction ts with
  | nil => intro idx h; rfl
  | cons t ts ih =>
    intro idx h
    have h0 : loadTensorAt pool table idx = some t := by
      have hx := h 0 t (by simp)
      simpa using hx
    have hrest : loadOutputLoop pool table (idx + 1) ts.length = some ts := by
      apply ih
      intro i u hu
      have hx := h (i + 1) u (by simpa using hu)
      have harith : idx + (i + 1) = idx + 1 + i := by omega
      rw [harith] at hx
      exact hx
    show loadOutputLoop pool table idx (ts.length + 1) = some (t :: ts)
    simp [loadOutputLoop, h0, hrest]

/-- C1: for a response without error, `SaveToSharedMemory` followed by
`LoadFromSharedMemory` of the resulting handle yields a response with the
same number of output tensors, with identical content in the same order,
and `HasError` is false on the result. -/
theorem save_load_roundtrip (pool : SharedMemoryManager) (r : InferResponse)
    (copy_gpu open_cuda_handle : Bool) (hr : r.HasError = false) :
    ∃ loaded,
      InferResponse.LoadFromSharedMemory (r.SaveToSharedMemory pool copy_gpu).1
          ((r.SaveToSharedMemory pool copy_gpu).2.ShmHandle) open_cuda_handle
        = some loaded ∧
      loaded.output_tensors.length = r.output_tensors.length ∧
      loaded.output_tensors.map PbTensor.content
        = r.output_tensors.map PbTensor.content ∧
      loaded.HasError = false := by
  classical
  set initRecord : ResponseShm :=
    { has_error := false, is_error_set := false, error := 0
      outputs_size := 0, output_handles := [] } with hinit
  set pool1 : SharedMemoryManager :=
    ⟨pool.cells ++ [ShmCell.responseCell initRecord]⟩ with hpool1
  set h := pool.cells.length with hh
  set saved := saveOutputTensors copy_gpu pool1 r.output_tensors with hsaved
  set record : ResponseShm :=
    { has_error := false, is_error_set := false, error := 0
      outputs_size := r.output_tensors.length
      output_handles := saved.2.1 } with hrecord
  set pool3 : SharedMemoryManager :=
    ⟨saved.1.cells.set h (ShmCell.responseCell record)⟩ with hpool3
  have hsave : r.SaveToSharedMemory pool copy_gpu
      = (pool3, { r with shm_handle := h, output_tensors := saved.2.2 }) := by
    simp only [InferResponse.SaveToSharedMemory, SharedMemoryManager.construct,
      hr, Bool.false_eq_true, if_false]
  have hlen1 : pool1.cells.length = h + 1 := by
    simp [hpool1, hh]
  have hcells : saved.1.cells
      = pool1.cells ++ (saved.2.2).map ShmCell.tensorCell := by
    simpa [hsaved] using saveOutputTensors_cells copy_gpu r.output_tensors pool1
  have hhandles : saved.2.1 = List.range' (h + 1) r.output_tensors.length := by
    have hx := saveOutputTensors_handles copy_gpu r.output_tensors pool1
    rw [hlen1] at hx
    simpa [hsaved] using hx
  have hts'len : saved.2.2.length = r.output_tensors.length := by
    simpa [hsaved] using
      saveOutputTensors_length copy_gpu r.output_tensors pool1
  have hhlt : h < saved.1.cells.length := by
    rw [hcells]
    simp only [List.length_append, hlen1]
    omega
  have hrec : pool3.cells[h]? = some (ShmCell.responseCell record) := by
    rw [hpool3]
    exact List.getElem?_set_self hhlt
  have hpoint : ∀ i t, saved.2.2[i]? = some t →
      loadTensorAt pool3 saved.2.1 (0 + i) = some t := by
    intro i t hi
    have hilt : i < saved.2.2.length := by
      by_contra hge
      rw [List.getElem?_eq_none (by omega)] at hi
      exact Option.noConfusion hi
    have hirange : i < r.output_tensors.length := by omega
    have htable : saved.2.1[i]? = some (h + 1 + i) := by
      rw [hhandles, List.getElem?_eq_getElem (by simpa using hirange),
        List.getElem_range']
      simp
    have hcell : pool3.cells[h + 1 + i]? = some (ShmCell.tensorCell t) := by
      rw [hpool3]
      rw [List.getElem?_set_ne (by omega)]
      rw [hcells]
      rw [List.getElem?_append_right (by omega)]
      have hidx : h + 1 + i - pool1.cells.length = i := by omega
      rw [hidx, List.getElem?_map, hi]
      rfl
    simp only [loadTensorAt, Nat.zero_add, htable, SharedMemoryManager.load,
      hcell]
  have hloop : loadOutputLoop pool3 saved.2.1 0 saved.2.2.length
      = some saved.2.2 :=
    loadOutputLoop_of_pointwise pool3 saved.2.1 saved.2.2 0 hpoint
  refine ⟨{ output_tensors := saved.2.2, error := none,
            next_response_future := none, shm_handle := h }, ?_, ?_, ?_, rfl⟩
  · rw [hsave]
    simp only [InferResponse.LoadFromSharedMemory, InferResponse.ShmHandle,
      SharedMemoryManager.load, hrec]
    rw [hrecord]
    rw [← hts'len, hloop]
    simp
  · simpa using hts'len
  · simpa [hsaved] using
      saveOutputTensors_content copy_gpu r.output_tensors pool1

/-- Witness for C1: a two-tensor host response through an empty arena. -/
theorem save_load_roundtrip_witness :
    ({ output_tensors :=
         [{ name := "OUT0", dtype := 1, dims := [2], byteSize := 8
            memoryType := MemType.cpu, memoryTypeId := 0
            data := [1, 2, 3, 4, 5, 6, 7, 8], shm_handle := 0 },
          { name := "OUT1", dtype := 1, dims := [3], byteSize := 12
            memoryType := MemType.cpu, memoryTypeId := 0
            data := [0, 0, 0, 0, 0, 0, 0, 0, 0, 0, 0, 0], shm_handle := 0 }]
       error := none, next_response_future := none, shm_handle := 0 }
        : InferResponse).HasError = false ∧
    ∃ loaded,
      InferResponse.LoadFromSharedMemory
          (InferResponse.SaveToSharedMemory
            { output_tensors :=
                [{ name := "OUT0", dtype := 1, dims := [2], byteSize := 8
                   memoryType := MemType.cpu, memoryTypeId := 0
                   data := [1, 2, 3, 4, 5, 6, 7, 8], shm_handle := 0 },
                 { name := "OUT1", dtype := 1, dims := [3], byteSize := 12
                   memoryType := MemType.cpu, memoryTypeId := 0
                   data := [0, 0, 0, 0, 0, 0, 0, 0, 0, 0, 0, 0]
                   shm_handle := 0 }]
              error := none, next_response_future := none, shm_handle := 0 }
            ⟨[]⟩ false).1
          ((InferResponse.SaveToSharedMemory
            { output_tensors :=
                [{ name := "OUT0", dtype := 1, dims := [2], byteSize := 8
                   memoryType := MemType.cpu, memoryTypeId := 0
                   data := [1, 2, 3, 4, 5, 6, 7, 8], shm_handle := 0 },
                 { name := "OUT1", dtype := 1, dims := [3], byteSize := 12
                   memoryType := MemType.cpu, memoryTypeId := 0
                   data := [0, 0, 0, 0, 0, 0, 0, 0, 0, 0, 0, 0]
                   shm_handle := 0 }]
              error := none, next_response_future := none, shm_handle := 0 }
            ⟨[]⟩ false).2.ShmHandle) false
        = some loaded ∧
      loaded.output_tensors.length = 2 ∧
      loaded.output_tensors.map PbTensor.content
        = [{ name := "OUT0", dtype := 1, dims := [2], byteSize := 8
             memoryType := MemType.cpu, memoryTypeId := 0
             data := [1, 2, 3, 4, 5, 6, 7, 8], shm_handle := 0 },
           { name := "OUT1", dtype := 1, dims := [3], byteSize := 12
             memoryType := MemType.cpu, memoryTypeId := 0
             data := [0, 0, 0, 0, 0, 0, 0, 0, 0, 0, 0, 0],
             shm_handle := 0 }].map (fun t : PbTensor => t.content) ∧
      loaded.HasError = false :=
  ⟨rfl, save_load_roundtrip ⟨[]⟩ _ false false rfl⟩

/-- C3: loading any record flagged `has_error` never loads output tensors
and always yields a non-null error: with `is_error_set` false the error is
the synthesized placeholder (no crash), and for a record written by saving
an error response (`is_error_set` true) the loaded error's message equals
the originally serialized one. -/
theorem load_error_record_spec :
    (∀ (pool : SharedMemoryManager) (handle : Handle) (record : ResponseShm)
        (open_cuda_handle : Bool),
        pool.load handle = some (ShmCell.responseCell record) →
        record.has_error = true → record.is_error_set = false →
        InferResponse.LoadFromSharedMemory pool handle open_cuda_handle
          = some { output_tensors := []
                   error := some { message := failedRetrieveMessage
                                   shm_handle := 0 }
                   next_response_future := none, shm_handle := handle }) ∧
    (∀ (pool : SharedMemoryManager) (r : InferResponse)
        (copy_gpu open_cuda_handle : Bool) (e : PbError),
        r.error = some e →
        ∃ loaded,
          InferResponse.LoadFromSharedMemory
              (r.SaveToSharedMemory pool copy_gpu).1
              ((r.SaveToSharedMemory pool copy_gpu).2.ShmHandle)
              open_cuda_handle
            = some loaded ∧
          loaded.error.map PbError.message = some e.message ∧
          loaded.output_tensors = []) := by
  constructor
  · intro pool handle record open_cuda_handle hload herr hset
    simp only [InferResponse.LoadFromSharedMemory]
    rw [hload]
    simp [herr, hset]
  · intro pool r copy_gpu open_cuda_handle e he
    have hr : r.HasError = true := by simp [InferResponse.HasError, he]
    have hmsg : (r.error.map PbError.message).getD "" = e.message := by
      rw [he]
      rfl
    set h := pool.cells.length with hh
    set pool1 : SharedMemoryManager :=
      ⟨pool.cells ++ [ShmCell.responseCell
        { has_error := false, is_error_set := false, error := 0
          outputs_size := 0, output_handles := [] }]⟩ with hpool1
    have hplen : pool1.cells.length = h + 1 := by
      simp [hpool1, hh]
    set pool2 : SharedMemoryManager :=
      ⟨pool1.cells ++ [ShmCell.errorCell e.message]⟩ with hpool2
    have hplen2 : pool2.cells.length = h + 2 := by
      simp [hpool2, hplen]
    set record : ResponseShm :=
      { has_error := true, is_error_set := true, error := h + 1
        outputs_size := 0, output_handles := [] } with hrecord
    set pool3 : SharedMemoryManager :=
      ⟨pool2.cells.set h (ShmCell.responseCell record)⟩ with hpool3
    have hsave : r.SaveToSharedMemory pool copy_gpu
        = (pool3, { r with
                    shm_handle := h,
                    error := r.error.map
                      (fun x => { x with shm_handle := h + 1 }) }) := by
      simp only [InferResponse.SaveToSharedMemory,
        SharedMemoryManager.construct, hr, if_true, hmsg]
      simp [hpool1, hpool2, hpool3, hrecord, hh]
    have hrec : pool3.cells[h]? = some (ShmCell.responseCell record) := by
      rw [hpool3]
      exact List.getElem?_set_self (by omega)
    have hcellE : pool3.cells[h + 1]? = some (ShmCell.errorCell e.message) := by
      rw [hpool3]
      rw [List.getElem?_set_ne (by omega)]
      rw [hpool2]
      show (pool1.cells ++ [ShmCell.errorCell e.message])[h + 1]? = _
      rw [List.getElem?_append_right (by omega)]
      simp [hplen]
    refine ⟨{ output_tensors := [],
              error := some { message := e.message, shm_handle := h + 1 },
              next_response_future := none, shm_handle := h }, ?_, by simp, rfl⟩
    rw [hsave]
    simp only [InferResponse.LoadFromSharedMemory, InferResponse.ShmHandle,
      SharedMemoryManager.load, hrec]
    simp only [hrecord, Bool.and_self, eq_self_iff_true, if_true, hcellE]

/-- Witness for C3: the corrupted-record branch on a one-cell arena, and
the error round-trip for a concrete error response through an empty
arena. -/
theorem load_error_record_spec_witness :
    (InferResponse.LoadFromSharedMemory
        ⟨[ShmCell.responseCell
            { has_error := true, is_error_set := false, error := 0,
              outputs_size := 0, output_handles := [] }]⟩ 0 false
      = some { output_tensors := [],
               error := some { message := failedRetrieveMessage,
                               shm_handle := 0 },
               next_response_future := none, shm_handle := 0 }) ∧
    (∃ loaded,
      InferResponse.LoadFromSharedMemory
          (InferResponse.SaveToSharedMemory
            { output_tensors := [],
              error := some { message := "boom", shm_handle := 0 },
              next_response_future := none, shm_handle := 0 } ⟨[]⟩ false).1
          ((InferResponse.SaveToSharedMemory
            { output_tensors := [],
              error := some { message := "boom", shm_handle := 0 },
              next_response_future := none, shm_handle := 0 } ⟨[]⟩
            false).2.ShmHandle) false
        = some loaded ∧
      loaded.error.map PbError.message = some "boom" ∧
      loaded.output_tensors = []) :=
  ⟨load_error_record_spec.1 _ 0 _ false rfl rfl rfl,
   load_error_record_spec.2 ⟨[]⟩ _ false false { message := "boom", shm_handle := 0 } rfl⟩

/-- C2: once the send defer is armed, every exit path of `Send` consumes it
exactly once: either it fires at function exit (and nothing is stored on
the response), or — exactly when deferred completion is required — it is
stored and fires exactly once at the first `DeferredSendCallback`, with a
second call firing nothing.  Never both, never zero. -/
theorem send_action_exactly_once (r : InferResponse) (env : SendEnv)
    (flags : Nat) (response_provided : Bool)
    (output_buffers : List OutputBufferDesc) (requested : List String)
    (hfresh : r.deferred_send_callback = none)
    (harmed : (r.Send env flags response_provided output_buffers
        requested).2.armed = true) :
    ((r.Send env flags response_provided output_buffers
        requested).2.fired_at_exit = true ∧
     (r.Send env flags response_provided output_buffers
        requested).1.deferred_send_callback = none ∧
     (r.Send env flags response_provided output_buffers
        requested).2.requires_deferred_callback = false) ∨
    ((r.Send env flags response_provided output_buffers
        requested).2.fired_at_exit = false ∧
     (r.Send env flags response_provided output_buffers
        requested).2.requires_deferred_callback = true ∧
     (r.Send env flags response_provided output_buffers
        requested).1.DeferredSendCallback.2 = true ∧
     (r.Send env flags response_provided output_buffers
        requested).1.DeferredSendCallback.1.DeferredSendCallback.2
        = false) := by
  unfold InferResponse.Send at harmed ⊢
  cases hfe : (if response_provided then none else env.factoryNewError) with
  | some msg =>
    rw [hfe] at harmed
    simp at harmed
  | none =>
    by_cases hhe : r.HasError = true
    · left
      simp [hhe, armedExit, hfresh]
    · rw [Bool.not_eq_true] at hhe
      simp only [hhe, Bool.false_eq_true, if_false]
      cases hsl : sendLoop env 0 r.output_tensors
          ⟨false, false, output_buffers, 0⟩ with
      | error pr =>
        obtain ⟨msg, st⟩ := pr
        by_cases hrd : st.requires_deferred_callback = true
        · right
          simp [armedExit, hrd, InferResponse.DeferredSendCallback]
        · left
          rw [Bool.not_eq_true] at hrd
          simp [armedExit, hrd, hfresh]
      | ok st =>
        by_cases hrd : st.requires_deferred_callback = true
        · right
          simp [armedExit, hrd, InferResponse.DeferredSendCallback]
        · left
          rw [Bool.not_eq_true] at hrd
          simp [armedExit, hrd, hfresh]

/-- Witness for C2: a concrete host-only response in the benign runtime —
the action is armed and fires at exit. -/
theorem send_action_exactly_once_witness :
    ({ output_tensors := [], error := none, next_response_future := none,
       shm_handle := 0 } : InferResponse).deferred_send_callback = none ∧
    (InferResponse.Send
      { output_tensors := [], error := none, next_response_future := none,
        shm_handle := 0 } benignEnv 1 true [] []).2.armed = true ∧
    (((InferResponse.Send
        { output_tensors := [], error := none, next_response_future := none,
          shm_handle := 0 } benignEnv 1 true [] []).2.fired_at_exit = true ∧
     (InferResponse.Send
        { output_tensors := [], error := none, next_response_future := none,
          shm_handle := 0 } benignEnv 1 true [] []).1.deferred_send_callback
        = none ∧
     (InferResponse.Send
        { output_tensors := [], error := none, next_response_future := none,
          shm_handle := 0 } benignEnv 1 true
        [] []).2.requires_deferred_callback = false) ∨
    ((InferResponse.Send
        { output_tensors := [], error := none, next_response_future := none,
          shm_handle := 0 } benignEnv 1 true [] []).2.fired_at_exit = false ∧
     (InferResponse.Send
        { output_tensors := [], error := none, next_response_future := none,
          shm_handle := 0 } benignEnv 1 true
        [] []).2.requires_deferred_callback = true ∧
     (InferResponse.Send
        { output_tensors := [], error := none, next_response_future := none,
          shm_handle := 0 } benignEnv 1 true
        [] []).1.DeferredSendCallback.2 = true ∧
     (InferResponse.Send
        { output_tensors := [], error := none, next_response_future := none,
          shm_handle := 0 } benignEnv 1 true
        [] []).1.DeferredSendCallback.1.DeferredSendCallback.2 = false)) :=
  ⟨rfl, rfl, send_action_exactly_once _ benignEnv 1 true [] [] rfl rfl⟩

/-- C4 counterexample: for a concrete error-carrying response, `Send` does
not return the wrapped error slot — it takes the `return nullptr;` exit, so
the value returned is a null handle, not a non-null pointer to the error
pointer. -/
theorem send_error_returns_null_counterexample :
    ({ output_tensors := [],
       error := some { message := "boom", shm_handle := 0 },
       next_response_future := none, shm_handle := 0 }
        : InferResponse).HasError = true ∧
    (InferResponse.Send
      { output_tensors := [],
        error := some { message := "boom", shm_handle := 0 },
        next_response_future := none, shm_handle := 0 }
      benignEnv 1 true [] []).2.returned_slot = false :=
  ⟨rfl, rfl⟩

/-- C4 (amended): for an error-carrying response, `Send` writes the
original error message into the wrapped error slot and returns immediately
— zero runtime outputs are created, the caller's `output_buffers` list is
untouched — but the value returned is a null handle (`return nullptr;`),
not the slot; the slot itself (read by the send action, which still fires
at exit) carries the error. -/
theorem send_error_response (r : InferResponse) (env : SendEnv) (flags : Nat)
    (response_provided : Bool) (output_buffers : List OutputBufferDesc)
    (requested : List String) (e : PbError) (he : r.error = some e)
    (hok : (if response_provided then none else env.factoryNewError)
        = none) :
    (r.Send env flags response_provided output_buffers
        requested).2.response_error = some e.message ∧
    (r.Send env flags response_provided output_buffers
        requested).2.outputs_created = 0 ∧
    (r.Send env flags response_provided output_buffers
        requested).2.output_buffers = output_buffers ∧
    (r.Send env flags response_provided output_buffers
        requested).2.returned_slot = false ∧
    (r.Send env flags response_provided output_buffers
        requested).2.fired_at_exit = true := by
  have hhe : r.HasError = true := by simp [InferResponse.HasError, he]
  unfold InferResponse.Send
  rw [hok]
  simp [hhe, armedExit, he]

/-- Witness for C4's amended theorem at a concrete error response. -/
theorem send_error_response_witness :
    ({ output_tensors := [],
       error := some { message := "boom", shm_handle := 0 },
       next_response_future := none, shm_handle := 0 }
        : InferResponse).error = some { message := "boom", shm_handle := 0 } ∧
    (InferResponse.Send
      { output_tensors := [],
        error := some { message := "boom", shm_handle := 0 },
        next_response_future := none, shm_handle := 0 }
      benignEnv 1 true [] []).2.response_error = some "boom" ∧
    (InferResponse.Send
      { output_tensors := [],
        error := some { message := "boom", shm_handle := 0 },
        next_response_future := none, shm_handle := 0 }
      benignEnv 1 true [] []).2.outputs_created = 0 :=
  ⟨rfl,
   (send_error_response _ benignEnv 1 true [] [] _ rfl rfl).1,
   (send_error_response _ benignEnv 1 true [] [] _ rfl rfl).2.1⟩

/-- When every remaining output tensor lives in host memory, the output
loop never sets the deferred-completion flag, whichever exit it takes. -/
theorem sendLoop_all_host (env : SendEnv) (ts : List PbTensor) :
    ∀ (idx : Nat) (st : SendLoopState),
      (∀ t ∈ ts, t.memoryType ≠ MemType.gpu) →
      st.requires_deferred_callback = false →
      (loopFinalState
        (sendLoop env idx ts st)).requires_deferred_callback = false := by
  induction ts with
  | nil =>
    intro idx st hmem hst
    simpa [sendLoop, loopFinalState] using hst
  | cons t ts ih =>
    intro idx st hmem hst
    have hmt : t.memoryType ≠ MemType.gpu := hmem t (by simp)
    have hms : ∀ u ∈ ts, u.memoryType ≠ MemType.gpu := fun u hu =>
      hmem u (by simp [hu])
    simp only [sendLoop]
    rw [if_neg hmt]
    cases env.responseOutputError idx with
    | some msg => simpa [loopFinalState] using hst
    | none =>
      cases env.outputBufferError idx with
      | some msg => simpa [loopFinalState] using hst
      | none =>
        cases env.bufferAttributesError idx with
        | some msg => simpa [loopFinalState] using hst
        | none =>
          rw [if_neg (fun hc => hmt hc.1), if_neg (fun hc => hmt hc.1),
            if_pos hmt]
          cases env.copyBufferError idx with
          | some msg => simpa [loopFinalState] using hst
          | none =>
            exact ih (idx + 1) _ hms (by simp [hst])

/-- In a runtime with no failures, the output loop completes without an
early exit, and the deferred-completion flag ends up set exactly when some
remaining tensor's source memory is GPU. -/
theorem sendLoop_no_failures (env : SendEnv) (hnf : env.noFailures)
    (ts : List PbTensor) :
    ∀ (idx : Nat) (st : SendLoopState), ∃ st',
      sendLoop env idx ts st = .ok st' ∧
      st'.requires_deferred_callback
        = (st.requires_deferred_callback
            || ts.any (fun t => decide (t.memoryType = MemType.gpu))) := by
  induction ts with
  | nil => intro idx st; exact ⟨st, rfl, by simp⟩
  | cons t ts ih =>
    intro idx st
    obtain ⟨hro, hob, hba, hipc, hpm, hcb⟩ := hnf.2 idx
    simp only [sendLoop, hro, hob, hba, hipc, hpm, hcb]
    by_cases hmt : t.memoryType = MemType.gpu
    · rw [if_pos hmt]
      cases hma : env.actualMemoryType idx with
      | gpu =>
        rw [if_pos ⟨hmt, rfl⟩]
        cases hgpu : env.gpuEnabled with
        | true =>
          simp only [if_true]
          obtain ⟨st', h1, h2⟩ := ih (idx + 1) _
          exact ⟨st', h1, by simp [h2, hmt]⟩
        | false =>
          simp only [Bool.false_eq_true, if_false]
          obtain ⟨st', h1, h2⟩ := ih (idx + 1) _
          exact ⟨st', h1, by simp [h2, hmt]⟩
      | cpu =>
        rw [if_neg (fun hc => by cases hc.2), if_pos ⟨hmt, Or.inl rfl⟩]
        obtain ⟨st', h1, h2⟩ := ih (idx + 1) _
        exact ⟨st', h1, by simp [h2, hmt]⟩
      | cpuPinned =>
        rw [if_neg (fun hc => by cases hc.2), if_pos ⟨hmt, Or.inr rfl⟩]
        obtain ⟨st', h1, h2⟩ := ih (idx + 1) _
        exact ⟨st', h1, by simp [h2, hmt]⟩
    · rw [if_neg hmt, if_neg (fun hc => hmt hc.1),
        if_neg (fun hc => hmt hc.1), if_pos hmt]
      obtain ⟨st', h1, h2⟩ := ih (idx + 1) _
      exact ⟨st', h1, by simp [h2, hmt]⟩

/-- C5: on a non-error response with the defers armed, `Send` reports no
deferred completion and fires the send action at exit when every output
tensor's source memory is host memory (whatever the runtime answers); and
under a runtime with no failures, if some output tensor's source memory is
GPU — whatever memory the runtime allocates, host included — the
out-parameter is true and the send action is moved onto the response for
the later explicit completion call instead of firing at exit. -/
theorem send_deferred_iff_gpu_source (r : InferResponse) (env : SendEnv)
    (flags : Nat) (response_provided : Bool)
    (output_buffers : List OutputBufferDesc) (requested : List String)
    (hne : r.HasError = false)
    (hok : (if response_provided then none else env.factoryNewError)
        = none) :
    ((∀ t ∈ r.output_tensors, t.memoryType ≠ MemType.gpu) →
      (r.Send env flags response_provided output_buffers
          requested).2.requires_deferred_callback = false ∧
      (r.Send env flags response_provided output_buffers
          requested).2.fired_at_exit = true) ∧
    (env.noFailures →
      (∃ t ∈ r.output_tensors, t.memoryType = MemType.gpu) →
      (r.Send env flags response_provided output_buffers
          requested).2.requires_deferred_callback = true ∧
      (r.Send env flags response_provided output_buffers
          requested).2.fired_at_exit = false ∧
      (r.Send env flags response_provided output_buffers
          requested).1.deferred_send_callback
        = some ⟨flags, !response_provided⟩) := by
  constructor
  · intro hhost
    have hloop := sendLoop_all_host env r.output_tensors 0
      ⟨false, false, output_buffers, 0⟩ hhost rfl
    unfold InferResponse.Send
    rw [hok]
    simp only [hne, Bool.false_eq_true, if_false]
    cases hsl : sendLoop env 0 r.output_tensors
        ⟨false, false, output_buffers, 0⟩ with
    | error pr =>
      obtain ⟨msg, st⟩ := pr
      rw [hsl] at hloop
      simp only [loopFinalState] at hloop
      simp [armedExit, hloop]
    | ok st =>
      rw [hsl] at hloop
      simp only [loopFinalState] at hloop
      simp [armedExit, hloop]
  · intro hnf hgpu
    obtain ⟨st', hsl, hreq⟩ := sendLoop_no_failures env hnf r.output_tensors
      0 ⟨false, false, output_buffers, 0⟩
    have hany : (r.output_tensors.any
        fun t => decide (t.memoryType = MemType.gpu)) = true := by
      obtain ⟨t, ht, hmt⟩ := hgpu
      exact List.any_eq_true.mpr ⟨t, ht, by simp [hmt]⟩
    have hreq' : st'.requires_deferred_callback = true := by
      rw [hreq, hany]
      simp
    unfold InferResponse.Send
    rw [hok]
    simp only [hne, Bool.false_eq_true, if_false]
    rw [hsl]
    simp [armedExit, hreq']

/-- Witness for C5: a host-only single-tensor response (first part) and a
GPU-sourced single-tensor response whose runtime allocates a host buffer
(second part), both in the benign runtime. -/
theorem send_deferred_iff_gpu_source_witness :
    ((InferResponse.Send
        { output_tensors :=
            [{ name := "OUT0", dtype := 1, dims := [2], byteSize := 8,
               memoryType := MemType.cpu, memoryTypeId := 0,
               data := [1, 2, 3, 4, 5, 6, 7, 8], shm_handle := 0 }],
          error := none, next_response_future := none, shm_handle := 0 }
        benignEnv 1 true [] []).2.requires_deferred_callback = false ∧
     (InferResponse.Send
        { output_tensors :=
            [{ name := "OUT0", dtype := 1, dims := [2], byteSize := 8,
               memoryType := MemType.cpu, memoryTypeId := 0,
               data := [1, 2, 3, 4, 5, 6, 7, 8], shm_handle := 0 }],
          error := none, next_response_future := none, shm_handle := 0 }
        benignEnv 1 true [] []).2.fired_at_exit = true) ∧
    ((InferResponse.Send
        { output_tensors :=
            [{ name := "OUT0", dtype := 1, dims := [2], byteSize := 8,
               memoryType := MemType.gpu, memoryTypeId := 0,
               data := [1, 2, 3, 4, 5, 6, 7, 8], shm_handle := 0 }],
          error := none, next_response_future := none, shm_handle := 0 }
        benignEnv 1 true [] []).2.requires_deferred_callback = true ∧
     (InferResponse.Send
        { output_tensors :=
            [{ name := "OUT0", dtype := 1, dims := [2], byteSize := 8,
               memoryType := MemType.gpu, memoryTypeId := 0,
               data := [1, 2, 3, 4, 5, 6, 7, 8], shm_handle := 0 }],
          error := none, next_response_future := none, shm_handle := 0 }
        benignEnv 1 true [] []).2.fired_at_exit = false ∧
     (InferResponse.Send
        { output_tensors :=
            [{ name := "OUT0", dtype := 1, dims := [2], byteSize := 8,
               memoryType := MemType.gpu, memoryTypeId := 0,
               data := [1, 2, 3, 4, 5, 6, 7, 8], shm_handle := 0 }],
          error := none, next_response_future := none, shm_handle := 0 }
        benignEnv 1 true [] []).1.deferred_send_callback
        = some ⟨1, !true⟩) :=
  ⟨(send_deferred_iff_gpu_source
      { output_tensors :=
          [{ name := "OUT0", dtype := 1, dims := [2], byteSize := 8,
             memoryType := MemType.cpu, memoryTypeId := 0,
             data := [1, 2, 3, 4, 5, 6, 7, 8], shm_handle := 0 }],
        error := none, next_response_future := none, shm_handle := 0 }
      benignEnv 1 true [] [] rfl rfl).1
      (by intro t ht; simp at ht; subst ht; simp),
   (send_deferred_iff_gpu_source
      { output_tensors :=
          [{ name := "OUT0", dtype := 1, dims := [2], byteSize := 8,
             memoryType := MemType.gpu, memoryTypeId := 0,
             data := [1, 2, 3, 4, 5, 6, 7, 8], shm_handle := 0 }],
        error := none, next_response_future := none, shm_handle := 0 }
      benignEnv 1 true [] [] rfl rfl).2
      (by refine ⟨rfl, fun i => ?_⟩; exact ⟨rfl, rfl, rfl, rfl, rfl, rfl⟩)
      ⟨{ name := "OUT0", dtype := 1, dims := [2], byteSize := 8,
         memoryType := MemType.gpu, memoryTypeId := 0,
         data := [1, 2, 3, 4, 5, 6, 7, 8], shm_handle := 0 }, by simp, rfl⟩⟩

end InferResponseModel
